import Mathlib

/-!
Verification of the embed-swiper monitor (`src/embed_slackbot.py`) against its
natural-language specification.

The Python program is shallowly embedded below.  External effects are modelled
as explicit environments:

* a database connect attempt (`pyodbc.connect`) either yields a connection
  handle or raises; an environment `Nat → Option Conn` gives, for each attempt
  index, the outcome of that attempt;
* the health-check round-trip query (`SELECT 1`) either succeeds or raises,
  modelled by a `Bool`;
* a Slack post attempt (`chat_postMessage`) either succeeds or raises
  `SlackApiError`, modelled by `Nat → Bool` indexed by attempt;
* the event query of `fetch_offline_events` either returns a list of rows or
  raises, modelled by `Except String (List Row)`;
* timestamps are modelled as `Nat`.

Python's three-valued returns (`True` / `False` / implicit `None`) are modelled
as `Option Bool`, with `none` standing for the implicit `None`.
-/

namespace EmbedSlackbot

/-- Abstract database connection handle (stands for a `pyodbc.Connection`). -/
abbrev Conn := Nat

/-- The `Metrics` dataclass (source lines 44-50).  `last_successful_check`
is an optional timestamp, modelled as `Option Nat`. -/
structure Metrics where
  notifications_sent : Nat
  failed_notifications : Nat
  db_connection_attempts : Nat
  db_connection_failures : Nat
  last_successful_check : Option Nat
  deriving DecidableEq

/-- The initial global metrics instance `metrics = Metrics()` (source line 53):
dataclass defaults are all zero / `None`. -/
def metrics0 : Metrics := ⟨0, 0, 0, 0, none⟩

/-- One row returned by the offline-events query (the fields selected at
source line 369 and consumed by `format_slack_message`). -/
structure Row where
  swiper_description : String
  user_name : String
  comment : String
  log_datetime : Nat
  days_offline : Nat
  deriving DecidableEq

/-- Result of `get_database_connection`: the updated metrics, the returned
value (`some` a connection or `none`), and — as ghost instrumentation for
stating claims — the number of `pyodbc.connect` calls actually performed. -/
structure ConnResult where
  metrics : Metrics
  conn : Option Conn
  calls : Nat
  deriving DecidableEq

/-- The retry loop `for attempt in range(max_retries)` of
`get_database_connection` (source lines 187-199), entered at index `attempt`.
On a successful connect the connection is returned; on an exception the loop
retries unless `attempt < max_retries - 1` fails (the last attempt), in which
case `db_connection_failures` is incremented and `None` is returned.  Falling
out of the loop (only possible when it runs zero iterations) returns the
implicit `None` without touching the failure counter. -/
def connectFrom (env : Nat → Option Conn) (max_retries attempt : Nat)
    (m : Metrics) : ConnResult :=
  if _h : attempt < max_retries then
    match env attempt with
    | some c => { metrics := m, conn := some c, calls := attempt + 1 }
    | none =>
      if attempt < max_retries - 1 then
        connectFrom env max_retries (attempt + 1) m
      else
        { metrics :=
            { m with db_connection_failures := m.db_connection_failures + 1 },
          conn := none, calls := attempt + 1 }
  else
    { metrics := m, conn := none, calls := attempt }
termination_by max_retries - attempt
decreasing_by omega

/-- `get_database_connection` (source lines 174-199): increments
`db_connection_attempts` once, before the retry loop, then runs the loop. -/
def get_database_connection (env : Nat → Option Conn) (max_retries : Nat)
    (m : Metrics) : ConnResult :=
  connectFrom env max_retries 0
    { m with db_connection_attempts := m.db_connection_attempts + 1 }

/-- `health_check` (source lines 201-224).  `queryOk` tells whether the
`SELECT 1` round trip succeeds or raises; `now` is `datetime.datetime.now()`.
The Python function returns `True` on success, `False` when the caught
exception fires, and the implicit `None` when `get_database_connection`
returned `None` (the `if conn:` guard fails and control falls off the `try`
block).  The result is the updated metrics paired with that three-valued
return. -/
def health_check (connEnv : Nat → Option Conn) (queryOk : Bool) (now : Nat)
    (m : Metrics) : Metrics × Option Bool :=
  let r := get_database_connection connEnv 3 m
  match r.conn with
  | some _ =>
    if queryOk then
      ({ r.metrics with last_successful_check := some now }, some true)
    else
      (r.metrics, some false)
  | none => (r.metrics, none)

/-- The value returned by the connect retry loop, independent of metrics:
used to state claims about control flow. -/
def connectOutcome (env : Nat → Option Conn) (max_retries attempt : Nat) :
    Option Conn :=
  if _h : attempt < max_retries then
    match env attempt with
    | some c => some c
    | none =>
      if attempt < max_retries - 1 then
        connectOutcome env max_retries (attempt + 1)
      else
        none
  else
    none
termination_by max_retries - attempt
decreasing_by omega

/-- The three-valued return of `health_check`, independent of metrics. -/
def healthOutcome (connEnv : Nat → Option Conn) (queryOk : Bool) :
    Option Bool :=
  match connectOutcome connEnv 3 0 with
  | some _ => some queryOk
  | none => none

/-- The retry loop `for attempt in range(max_retries)` of
`send_slack_notification` (source lines 305-322), entered at index `attempt`.
`env k = true` means the `chat_postMessage` call of attempt `k` succeeds;
`false` means it raises `SlackApiError`.  On success `notifications_sent` is
incremented and `True` returned; on the last failed attempt
`failed_notifications` is incremented and `False` returned; falling out of a
zero-iteration loop returns the implicit `None`. -/
def sendFrom (env : Nat → Bool) (max_retries attempt : Nat) (m : Metrics) :
    Metrics × Option Bool :=
  if _h : attempt < max_retries then
    if env attempt then
      ({ m with notifications_sent := m.notifications_sent + 1 }, some true)
    else if attempt < max_retries - 1 then
      sendFrom env max_retries (attempt + 1) m
    else
      ({ m with failed_notifications := m.failed_notifications + 1 },
       some false)
  else
    (m, none)
termination_by max_retries - attempt
decreasing_by omega

/-- `send_slack_notification` (source lines 290-322): the retry loop started
at attempt 0. -/
def send_slack_notification (env : Nat → Bool) (max_retries : Nat)
    (m : Metrics) : Metrics × Option Bool :=
  sendFrom env max_retries 0 m

/-- `fetch_offline_events` (source lines 326-379): executing the query either
yields rows (`Except.ok`) or raises (`Except.error`); the `except` branch logs
and returns `[]`. -/
def fetch_offline_events (qres : Except String (List Row)) : List Row :=
  match qres with
  | .ok rows => rows
  | .error _ => []

/-- The environment of one iteration of the monitoring loop
(`monitor_swiper_offline_events`, source lines 397-454):

* `shutdown` is the value of the global `shutdown_flag` observed at the
  `while not shutdown_flag` condition preceding this iteration;
* `healthConnEnv`, `healthQueryOk`, `now` feed the `health_check` call;
* `connEnv` feeds the `get_database_connection` call;
* `fetchResult` is the outcome of the query run by `fetch_offline_events`. -/
structure CycleEnv where
  shutdown : Bool
  healthConnEnv : Nat → Option Conn
  healthQueryOk : Bool
  now : Nat
  connEnv : Nat → Option Conn
  fetchResult : Except String (List Row)

/-- Phases of the monitoring loop, for stating temporal claims.
`finalPersist` is the `save_metrics()` in `main`'s `finally` block
(source line 496). -/
inductive Phase where
  | healthChecking
  | connecting
  | fetching
  | persisting
  | sleeping
  | finalPersist
  deriving DecidableEq

/-- The in-batch watermark update of the monitoring loop (source lines
430-443): starting from `last_check`, fold over the rows, replacing the
accumulator whenever `row.log_datetime > max_log_datetime`. -/
def batchMax (last_check : Nat) (rows : List Row) : Nat :=
  rows.foldl
    (fun acc row => if acc < row.log_datetime then row.log_datetime else acc)
    last_check

/-- Result of one loop iteration: the watermark `last_check` after the
iteration, the metrics after it, and the phases traversed. -/
structure CycleResult where
  last_check : Nat
  metrics : Metrics
  phases : List Phase

/-- One iteration of the monitoring loop body (source lines 415-454):
health check (skip cycle when falsy), connect (skip cycle when `None`), fetch,
watermark update over the nonempty batch, metrics persist, then the `finally`
sleep.  Notification dispatch is fire-and-forget (`pool.submit`) and mutates
no coordinator state, so it contributes nothing here. -/
def runCycle (e : CycleEnv) (last_check : Nat) (m : Metrics) : CycleResult :=
  let hr := health_check e.healthConnEnv e.healthQueryOk e.now m
  match hr.2 with
  | some true =>
    let r := get_database_connection e.connEnv 3 hr.1
    match r.conn with
    | some _ =>
      let rows := fetch_offline_events e.fetchResult
      let lc := if rows.isEmpty then last_check else batchMax last_check rows
      { last_check := lc, metrics := r.metrics,
        phases := [.healthChecking, .connecting, .fetching, .persisting,
                   .sleeping] }
    | none =>
      { last_check := last_check, metrics := r.metrics,
        phases := [.healthChecking, .connecting, .sleeping] }
  | _ =>
    { last_check := last_check, metrics := hr.1,
      phases := [.healthChecking, .sleeping] }

/-- Result of a run of the monitoring loop: final watermark, final metrics,
phase trace, and the list of watermark values after each executed iteration
(the successive values of the `last_check` variable). -/
structure RunState where
  last_check : Nat
  metrics : Metrics
  phases : List Phase
  wms : List Nat

/-- The monitoring loop `monitor_swiper_offline_events` (source lines
397-454) over a finite schedule of iteration environments.  Each element's
`shutdown` field is the flag value read at the `while not shutdown_flag`
condition; a `true` observation exits the loop before any phase of that
iteration runs.  The watermark produced by one iteration is the fetch lower
bound handed to the next. -/
def monitor_swiper_offline_events :
    List CycleEnv → Nat → Metrics → RunState
  | [], lc, m => { last_check := lc, metrics := m, phases := [], wms := [] }
  | e :: rest, lc, m =>
    if e.shutdown then
      { last_check := lc, metrics := m, phases := [], wms := [] }
    else
      let c := runCycle e lc m
      let r := monitor_swiper_offline_events rest c.last_check c.metrics
      { last_check := r.last_check, metrics := r.metrics,
        phases := c.phases ++ r.phases,
        wms := c.last_check :: r.wms }

/-- `main` around the monitoring loop (source lines 458-497): run the loop,
then the `finally` block persists metrics one final time before the process
terminates. -/
def main_run (envs : List CycleEnv) (lc : Nat) (m : Metrics) : RunState :=
  let r := monitor_swiper_offline_events envs lc m
  { r with phases := r.phases ++ [Phase.finalPersist] }

/-- Whether an iteration with environment `e` reaches the fetch: the health
check returned `True` and the subsequent connect succeeded. -/
def cycleProceeds (e : CycleEnv) : Bool :=
  (healthOutcome e.healthConnEnv e.healthQueryOk == some true)
    && (connectOutcome e.connEnv 3 0).isSome

/-- A sample iteration environment whose health check, connect and fetch all
succeed with no new events; used in concrete witnesses. -/
def cycleRun0 : CycleEnv :=
  { shutdown := false, healthConnEnv := fun _ => some 1, healthQueryOk := true,
    now := 0, connEnv := fun _ => some 1, fetchResult := .ok [] }

/-- A sample iteration environment at which the shutdown flag is observed set;
used in concrete witnesses. -/
def cycleStop : CycleEnv :=
  { shutdown := true, healthConnEnv := fun _ => some 1, healthQueryOk := true,
    now := 0, connEnv := fun _ => some 1, fetchResult := .ok [] }

/-! ## Helper lemmas about the connect retry loop -/

/-- The connect retry loop never touches `db_connection_attempts`. -/
theorem connectFrom_attempts (env : Nat → Option Conn) (mr a : Nat)
    (m : Metrics) :
    (connectFrom env mr a m).metrics.db_connection_attempts
      = m.db_connection_attempts := by
  induction a, m using connectFrom.induct env mr with
  | case1 a m h c hc => simp [connectFrom, h, hc]
  | case2 a m h hc h2 ih => rw [connectFrom]; simp [h, hc, h2, ih]
  | case3 a m h hc h2 => rw [connectFrom]; simp [h, hc, h2]
  | case4 a m h => rw [connectFrom]; simp [h]

/-- The value returned by the connect retry loop does not depend on the
metrics threaded through it. -/
theorem connectFrom_conn (env : Nat → Option Conn) (mr a : Nat) (m : Metrics) :
    (connectFrom env mr a m).conn = connectOutcome env mr a := by
  induction a, m using connectFrom.induct env mr with
  | case1 a m h c hc => rw [connectFrom, connectOutcome]; simp [h, hc]
  | case2 a m h hc h2 ih => rw [connectFrom, connectOutcome]; simp [h, hc, h2, ih]
  | case3 a m h hc h2 => rw [connectFrom, connectOutcome]; simp [h, hc, h2]
  | case4 a m h => rw [connectFrom, connectOutcome]; simp [h]

/-- When every remaining attempt fails, the connect retry loop increments
`db_connection_failures` once, returns `none`, and has performed all
`max_retries` attempts. -/
theorem connectFrom_all_fail (env : Nat → Option Conn) (mr a : Nat)
    (m : Metrics) :
    a < mr → (∀ i, a ≤ i → i < mr → env i = none) →
    connectFrom env mr a m
      = { metrics :=
            { m with db_connection_failures := m.db_connection_failures + 1 },
          conn := none, calls := mr } := by
  induction a, m using connectFrom.induct env mr with
  | case1 a m h1 c hc =>
    intro h hf
    exact absurd (hf a le_rfl h1) (by simp [hc])
  | case2 a m h1 hc h2 ih =>
    intro h hf
    rw [connectFrom]
    simp only [h1, hc, h2, dif_pos, if_pos]
    exact ih (by omega) (fun i hi1 hi2 => hf i (by omega) hi2)
  | case3 a m h1 hc h2 =>
    intro h hf
    rw [connectFrom]
    simp only [h1, hc, h2, dif_pos, if_neg]
    have hmr : a + 1 = mr := by omega
    simp [hmr]
  | case4 a m h1 => intro h hf; omega

/-- When attempt `k` is the first to succeed, the connect retry loop leaves
the metrics unchanged, returns the connection, and has performed `k + 1`
attempts. -/
theorem connectFrom_first_success (env : Nat → Option Conn) (mr a k : Nat)
    (c : Conn) (m : Metrics) (hk : k < mr) (hc : env k = some c) :
    a ≤ k → (∀ j, a ≤ j → j < k → env j = none) →
    connectFrom env mr a m
      = { metrics := m, conn := some c, calls := k + 1 } := by
  induction a, m using connectFrom.induct env mr with
  | case1 a m h1 c' hc' =>
    intro hak hf
    have hae : a = k := by
      by_contra hne
      have hlt : a < k := by omega
      exact absurd (hf a le_rfl hlt) (by simp [hc'])
    subst hae
    rw [hc] at hc'
    rw [connectFrom]
    simp [h1, hc, hc']
  | case2 a m h1 hc' h2 ih =>
    intro hak hf
    have hne : a ≠ k := fun he => by rw [he, hc] at hc'; cases hc'
    rw [connectFrom]
    simp only [h1, hc', h2, dif_pos, if_pos]
    exact ih (by omega) (fun j hj1 hj2 => hf j (by omega) hj2)
  | case3 a m h1 hc' h2 =>
    intro hak hf
    have hne : a ≠ k := fun he => by rw [he, hc] at hc'; cases hc'
    omega
  | case4 a m h1 => intro hak hf; omega

/-! ## Helper lemmas about the Slack send retry loop -/

/-- Entered below `max_retries`, the send retry loop returns `True` with
`notifications_sent` incremented when some remaining attempt succeeds, and
`False` with `failed_notifications` incremented when all remaining attempts
fail. -/
theorem sendFrom_eq (env : Nat → Bool) (mr a : Nat) (m : Metrics) :
    a < mr →
    sendFrom env mr a m
      = if (List.range' a (mr - a)).any env then
          ({ m with notifications_sent := m.notifications_sent + 1 },
           some true)
        else
          ({ m with failed_notifications := m.failed_notifications + 1 },
           some false) := by
  induction a, m using sendFrom.induct env mr with
  | case1 a m h1 hc =>
    intro h
    obtain ⟨n, hn⟩ : ∃ n, mr - a = n + 1 := ⟨mr - a - 1, by omega⟩
    rw [sendFrom, hn, List.range'_succ]
    simp [h1, hc]
  | case2 a m h1 hc h2 ih =>
    intro h
    obtain ⟨n, hn⟩ : ∃ n, mr - a = n + 1 := ⟨mr - a - 1, by omega⟩
    rw [sendFrom, hn, List.range'_succ]
    have hn2 : mr - (a + 1) = n := by omega
    have hca : env a = false := by revert hc; cases env a <;> simp
    rw [ih (by omega), hn2]
    cases henv2 : (List.range' (a + 1) n).any env <;>
      simp [List.any_cons, hca, henv2, h1, h2]
  | case3 a m h1 hc h2 =>
    intro h
    have hn : mr - a = 1 := by omega
    rw [sendFrom, hn, List.range'_succ]
    simp [h1, hc, h2]
  | case4 a m h1 => intro h; omega

/-! ## Helper lemmas about `health_check` -/

/-- The connection value returned by `get_database_connection` does not
depend on the metrics. -/
theorem get_database_connection_conn (env : Nat → Option Conn) (mr : Nat)
    (m : Metrics) :
    (get_database_connection env mr m).conn = connectOutcome env mr 0 := by
  rw [get_database_connection, connectFrom_conn]

/-- The three-valued return of `health_check` does not depend on the
metrics. -/
theorem health_check_snd (env : Nat → Option Conn) (q : Bool) (now : Nat)
    (m : Metrics) :
    (health_check env q now m).2 = healthOutcome env q := by
  rw [health_check, healthOutcome]
  have h := get_database_connection_conn env 3 m
  rcases hc : connectOutcome env 3 0 with _ | c
  · rw [hc] at h; rw [h]
  · rw [hc] at h; rw [h]
    cases q <;> simp

/-- Folding the batch maximum never decreases the watermark. -/
theorem batchMax_le (lc : Nat) (rows : List Row) : lc ≤ batchMax lc rows := by
  induction rows generalizing lc with
  | nil => simp [batchMax]
  | cons r t ih =>
    have h1 : lc ≤ if lc < r.log_datetime then r.log_datetime else lc := by
      split <;> omega
    calc lc ≤ if lc < r.log_datetime then r.log_datetime else lc := h1
      _ ≤ batchMax (if lc < r.log_datetime then r.log_datetime else lc) t := ih _
      _ = batchMax lc (r :: t) := by simp [batchMax, List.foldl]

/-- Characterization of the watermark after one loop iteration: the in-batch
maximum (computed from the incoming watermark) when the iteration reaches a
nonempty fetch, the incoming watermark otherwise. -/
theorem runCycle_last_check (e : CycleEnv) (lc : Nat) (m : Metrics) :
    (runCycle e lc m).last_check
      = if cycleProceeds e && !(fetch_offline_events e.fetchResult).isEmpty
        then batchMax lc (fetch_offline_events e.fetchResult)
        else lc := by
  rw [runCycle]
  rcases hh : healthOutcome e.healthConnEnv e.healthQueryOk with _ | b
  · rw [health_check_snd, hh]
    simp [cycleProceeds, hh]
  · rw [health_check_snd, hh]
    cases b
    · simp [cycleProceeds, hh]
    · rcases hc : connectOutcome e.connEnv 3 0 with _ | c
      · dsimp only
        rw [show (get_database_connection e.connEnv 3
            (health_check e.healthConnEnv e.healthQueryOk e.now m).1).conn
            = none from by rw [get_database_connection_conn, hc]]
        simp [cycleProceeds, hh, hc]
      · dsimp only
        rw [show (get_database_connection e.connEnv 3
            (health_check e.healthConnEnv e.healthQueryOk e.now m).1).conn
            = some c from by rw [get_database_connection_conn, hc]]
        cases hrr : (fetch_offline_events e.fetchResult).isEmpty <;>
          simp [cycleProceeds, hh, hc, hrr]

/-- One loop iteration never decreases the watermark. -/
theorem runCycle_le (e : CycleEnv) (lc : Nat) (m : Metrics) :
    lc ≤ (runCycle e lc m).last_check := by
  rw [runCycle_last_check]
  split
  · exact batchMax_le _ _
  · exact le_rfl

/-- Along any run of the monitoring loop, the successive values of the
watermark form a non-decreasing chain. -/
theorem monitor_wm_chain (envs : List CycleEnv) (lc : Nat) (m : Metrics) :
    List.Chain' (fun a b => a ≤ b)
      (lc :: (monitor_swiper_offline_events envs lc m).wms) := by
  induction envs generalizing lc m with
  | nil => simp [monitor_swiper_offline_events]
  | cons e rest ih =>
    by_cases hs : e.shutdown
    · simp [monitor_swiper_offline_events, hs]
    · rw [monitor_swiper_offline_events]
      simp only [hs, if_neg, Bool.false_eq_true, not_false_eq_true]
      rw [List.chain'_cons]
      exact ⟨runCycle_le e lc m, ih _ _⟩

/-- Once the shutdown flag is observed, the rest of the schedule contributes
nothing: the loop run over `pre ++ e :: rest`, where the flag is first
observed at `e`, equals the run over `pre` alone. -/
theorem monitor_shutdown_append (pre : List CycleEnv) (e : CycleEnv)
    (rest : List CycleEnv) (lc : Nat) (m : Metrics)
    (hpre : ∀ f ∈ pre, f.shutdown = false) (he : e.shutdown = true) :
    monitor_swiper_offline_events (pre ++ e :: rest) lc m
      = monitor_swiper_offline_events pre lc m := by
  induction pre generalizing lc m with
  | nil =>
    simp [monitor_swiper_offline_events, he]
  | cons f t ih =>
    have hf : f.shutdown = false := hpre f (by simp)
    rw [List.cons_append, monitor_swiper_offline_events,
      monitor_swiper_offline_events]
    simp only [hf, Bool.false_eq_true, if_neg, not_false_eq_true]
    rw [ih _ _ (fun g hg => hpre g (List.mem_cons_of_mem f hg))]

/-! ## Claims -/

/-- Claim C1: along every run of the monitoring loop the watermark
`last_check` is monotonically non-decreasing, and the fetch lower bound handed
to the next iteration (the watermark an iteration produces) equals the maximum
event timestamp of that iteration's batch computed starting from the incoming
watermark, or is unchanged when the iteration was skipped or its fetch
returned no events. -/
theorem watermark_monotone_step (envs : List CycleEnv) (lc : Nat)
    (m : Metrics) :
    List.Chain' (fun a b => a ≤ b)
      (lc :: (monitor_swiper_offline_events envs lc m).wms)
    ∧ ∀ (e : CycleEnv) (w : Nat) (mm : Metrics),
        (runCycle e w mm).last_check
          = if cycleProceeds e && !(fetch_offline_events e.fetchResult).isEmpty
            then batchMax w (fetch_offline_events e.fetchResult)
            else w :=
  ⟨monitor_wm_chain envs lc m, fun e w mm => runCycle_last_check e w mm⟩

/-- Claim C2: a send whose `max_retries` attempts all fail increments
`failed_notifications` by exactly 1 and leaves `notifications_sent` unchanged;
a send that first succeeds on attempt `k` (0-indexed, `k < max_retries`)
increments `notifications_sent` by exactly 1 and leaves
`failed_notifications` unchanged, regardless of `k`. -/
theorem send_counters_spec (env : Nat → Bool) (mr : Nat) (m : Metrics)
    (h : 1 ≤ mr) :
    ((∀ k, k < mr → env k = false) →
        (send_slack_notification env mr m).1.failed_notifications
            = m.failed_notifications + 1
          ∧ (send_slack_notification env mr m).1.notifications_sent
            = m.notifications_sent)
    ∧ (∀ k, k < mr → env k = true → (∀ j, j < k → env j = false) →
        (send_slack_notification env mr m).1.notifications_sent
            = m.notifications_sent + 1
          ∧ (send_slack_notification env mr m).1.failed_notifications
            = m.failed_notifications) := by
  have hs := sendFrom_eq env mr 0 m (by omega)
  rw [Nat.sub_zero] at hs
  constructor
  · intro hall
    have hany : (List.range' 0 mr).any env = false := by
      rw [List.any_eq_false]
      intro x hx
      have hx2 := List.mem_range'_1.mp hx
      simp [hall x (by omega)]
    rw [send_slack_notification, hs, hany]
    simp
  · intro k hk hkt hprev
    have hany : (List.range' 0 mr).any env = true := by
      rw [List.any_eq_true]
      exact ⟨k, List.mem_range'_1.mpr ⟨by omega, by omega⟩, hkt⟩
    rw [send_slack_notification, hs, hany]
    simp

/-- Witness for C2: with three attempts, the all-fail send increments the
failure counter and the send succeeding first on attempt 1 increments the
success counter. -/
theorem send_counters_spec_witness :
    ((send_slack_notification (fun _ => false) 3 metrics0).1.failed_notifications
        = metrics0.failed_notifications + 1
      ∧ (send_slack_notification (fun _ => false) 3 metrics0).1.notifications_sent
        = metrics0.notifications_sent)
    ∧ ((send_slack_notification (fun k => k == 1) 3 metrics0).1.notifications_sent
        = metrics0.notifications_sent + 1
      ∧ (send_slack_notification (fun k => k == 1) 3 metrics0).1.failed_notifications
        = metrics0.failed_notifications) := by
  constructor
  · exact (send_counters_spec (fun _ => false) 3 metrics0 (by norm_num)).1
      (fun k _ => rfl)
  · exact (send_counters_spec (fun k => k == 1) 3 metrics0 (by norm_num)).2 1
      (by norm_num) rfl
      (fun j hj => by
        have hj0 : j = 0 := by omega
        subst hj0
        rfl)

/-- Claim C3 counterexample: at a concrete input where every connection
attempt fails, `health_check` returns `None` (the implicit Python `None`), not
the boolean `False` the claim asserts. -/
theorem health_check_conn_failure_not_false :
    (get_database_connection (fun _ => none) 3 metrics0).conn = none
    ∧ (health_check (fun _ => none) true 0 metrics0).2 = none
    ∧ (health_check (fun _ => none) true 0 metrics0).2 ≠ some false := by
  refine ⟨?_, ?_, ?_⟩ <;>
    simp [health_check, get_database_connection, connectFrom, metrics0]

/-- Claim C3 (amended): if opening the connection fails, `health_check`
returns the falsy value `None` (not the boolean `False`); if the round-trip
query fails, it returns `False`; in either case no error propagates (the
function is total).  On success it sets `last_successful_check` to the current
time and returns `True`. -/
theorem health_check_result_spec (env : Nat → Option Conn) (q : Bool)
    (now : Nat) (m : Metrics) :
    (connectOutcome env 3 0 = none → (health_check env q now m).2 = none)
    ∧ (connectOutcome env 3 0 ≠ none → q = false →
        (health_check env q now m).2 = some false)
    ∧ (connectOutcome env 3 0 ≠ none → q = true →
        (health_check env q now m).2 = some true
        ∧ (health_check env q now m).1.last_successful_check = some now) := by
  refine ⟨?_, ?_, ?_⟩
  · intro hc
    rw [health_check_snd, healthOutcome, hc]
  · intro hc hq
    rcases ho : connectOutcome env 3 0 with _ | c
    · exact absurd ho hc
    · rw [health_check_snd, healthOutcome, ho, hq]
  · intro hc hq
    rcases ho : connectOutcome env 3 0 with _ | c
    · exact absurd ho hc
    · subst hq
      constructor
      · rw [health_check_snd, healthOutcome, ho]
      · rw [health_check]
        dsimp only
        rw [show (get_database_connection env 3 m).conn = some c from by
          rw [get_database_connection_conn, ho]]
        simp

/-- Witness for the amended C3, exercising all three branches at concrete
inputs. -/
theorem health_check_result_spec_witness :
    (health_check (fun _ => none) true 0 metrics0).2 = none
    ∧ (health_check (fun _ => some 7) false 0 metrics0).2 = some false
    ∧ ((health_check (fun _ => some 7) true 5 metrics0).2 = some true
        ∧ (health_check (fun _ => some 7) true 5
            metrics0).1.last_successful_check = some 5) := by
  refine ⟨?_, ?_, ?_⟩
  · exact (health_check_result_spec (fun _ => none) true 0 metrics0).1
      (by simp [connectOutcome])
  · exact (health_check_result_spec (fun _ => some 7) false 0 metrics0).2.1
      (by simp [connectOutcome]) rfl
  · exact (health_check_result_spec (fun _ => some 7) true 5 metrics0).2.2
      (by simp [connectOutcome]) rfl

/-- Claim C4 counterexample: at a concrete input whose first attempt fails and
second succeeds, the call performs 2 connection attempts but
`db_connection_attempts` grows by 1, not 2: the counter is incremented once
per call (before the loop), not once per attempt. -/
theorem connect_attempt_counter_not_per_attempt :
    (get_database_connection (fun i => if i = 0 then none else some 1) 3
        metrics0).calls = 2
    ∧ (get_database_connection (fun i => if i = 0 then none else some 1) 3
        metrics0).metrics.db_connection_attempts = 1
    ∧ (1 : Nat) ≠ 2 := by
  refine ⟨?_, ?_, by norm_num⟩ <;>
    simp [get_database_connection, connectFrom, metrics0]

/-- Claim C4 (amended): every call to `get_database_connection` increments
`db_connection_attempts` by exactly 1, regardless of how many connection
attempts the call performs. -/
theorem connect_increments_attempts_once (env : Nat → Option Conn) (mr : Nat)
    (m : Metrics) :
    (get_database_connection env mr m).metrics.db_connection_attempts
      = m.db_connection_attempts + 1 := by
  rw [get_database_connection, connectFrom_attempts]

/-- Claim C5: a call whose `max_retries` attempts all fail increments
`db_connection_failures` by exactly 1 and returns the structured failure value
`None` instead of raising; a call that succeeds on some attempt leaves
`db_connection_failures` unchanged and returns the connection. -/
theorem connect_exhaustion_spec (env : Nat → Option Conn) (mr : Nat)
    (m : Metrics) (h : 1 ≤ mr) :
    ((∀ i, i < mr → env i = none) →
        (get_database_connection env mr m).conn = none
        ∧ (get_database_connection env mr m).metrics.db_connection_failures
            = m.db_connection_failures + 1)
    ∧ (∀ k c, k < mr → env k = some c → (∀ j, j < k → env j = none) →
        (get_database_connection env mr m).conn = some c
        ∧ (get_database_connection env mr m).metrics.db_connection_failures
            = m.db_connection_failures) := by
  constructor
  · intro hall
    rw [get_database_connection,
      connectFrom_all_fail env mr 0 _ (by omega) (fun i _ hi => hall i hi)]
    exact ⟨rfl, rfl⟩
  · intro k c hk hc hprev
    rw [get_database_connection,
      connectFrom_first_success env mr 0 k c _ hk hc (Nat.zero_le k)
        (fun j _ hj => hprev j hj)]
    exact ⟨rfl, rfl⟩

/-- Witness for C5: a concrete exhausted call and a concrete immediately
successful call. -/
theorem connect_exhaustion_spec_witness :
    ((get_database_connection (fun _ => none) 3 metrics0).conn = none
      ∧ (get_database_connection (fun _ => none) 3
          metrics0).metrics.db_connection_failures
          = metrics0.db_connection_failures + 1)
    ∧ ((get_database_connection (fun _ => some 5) 3 metrics0).conn = some 5
      ∧ (get_database_connection (fun _ => some 5) 3
          metrics0).metrics.db_connection_failures
          = metrics0.db_connection_failures) := by
  constructor
  · exact (connect_exhaustion_spec (fun _ => none) 3 metrics0 (by norm_num)).1
      (fun i _ => rfl)
  · exact (connect_exhaustion_spec (fun _ => some 5) 3 metrics0
      (by norm_num)).2 0 5 (by norm_num) rfl (fun j hj => absurd hj (by omega))

/-- Claim C6: when the query raises, `fetch_offline_events` returns the empty
list and propagates nothing, which is exactly what a successful query with no
new events returns. -/
theorem fetch_error_returns_empty (e : String) :
    fetch_offline_events (Except.error e) = []
    ∧ fetch_offline_events (Except.error e)
        = fetch_offline_events (Except.ok []) :=
  ⟨rfl, rfl⟩

/-- Claim C7: when the shutdown flag is first observed true at the loop
condition following some iteration's sleep, the remaining schedule contributes
no phase at all — in particular no new health-checking phase — and the run
ends with the final metrics persist of `main`'s `finally` block. -/
theorem shutdown_during_sleep_exits (pre : List CycleEnv) (e : CycleEnv)
    (rest : List CycleEnv) (lc : Nat) (m : Metrics)
    (hpre : ∀ f ∈ pre, f.shutdown = false) (he : e.shutdown = true) :
    (main_run (pre ++ e :: rest) lc m).phases
      = (monitor_swiper_offline_events pre lc m).phases ++ [Phase.finalPersist]
    ∧ Phase.healthChecking ∉
        ((main_run (pre ++ e :: rest) lc m).phases.drop
          (monitor_swiper_offline_events pre lc m).phases.length) := by
  have h1 : (main_run (pre ++ e :: rest) lc m).phases
      = (monitor_swiper_offline_events pre lc m).phases
          ++ [Phase.finalPersist] := by
    rw [main_run]
    dsimp only
    rw [monitor_shutdown_append pre e rest lc m hpre he]
  refine ⟨h1, ?_⟩
  rw [h1, List.drop_left]
  simp

/-- Witness for C7: one normal iteration followed by a shutdown observation. -/
theorem shutdown_during_sleep_exits_witness :
    (main_run [cycleRun0, cycleStop] 0 metrics0).phases
      = (monitor_swiper_offline_events [cycleRun0] 0 metrics0).phases
          ++ [Phase.finalPersist]
    ∧ Phase.healthChecking ∉
        ((main_run [cycleRun0, cycleStop] 0 metrics0).phases.drop
          (monitor_swiper_offline_events [cycleRun0] 0 metrics0).phases.length) :=
  shutdown_during_sleep_exits [cycleRun0] cycleStop [] 0 metrics0
    (fun f hf => by
      rw [List.mem_singleton] at hf
      subst hf
      rfl) rfl

/-- Claim C8: `send_slack_notification` always returns a boolean (never an
escaping error): `True` exactly when some attempt among the `max_retries`
succeeds, `False` when all fail — every failure is resolved inside the
function by retrying to success or exhaustion. -/
theorem send_always_returns_bool (env : Nat → Bool) (mr : Nat) (m : Metrics)
    (h : 1 ≤ mr) :
    (send_slack_notification env mr m).2 = some ((List.range mr).any env) := by
  have hs := sendFrom_eq env mr 0 m (by omega)
  rw [Nat.sub_zero] at hs
  rw [send_slack_notification, hs, List.range_eq_range']
  cases hany : (List.range' 0 mr).any env <;> simp [hany]

/-- Witness for C8 at a concrete all-fail input. -/
theorem send_always_returns_bool_witness :
    (send_slack_notification (fun _ => false) 3 metrics0).2
      = some ((List.range 3).any (fun _ => false)) :=
  send_always_returns_bool (fun _ => false) 3 metrics0 (by norm_num)

/-- Claim C10: called with `max_retries = 0`, `get_database_connection`
performs no connection attempt, still increments `db_connection_attempts` by
exactly 1, leaves `db_connection_failures` unchanged, and returns `None`. -/
theorem connect_zero_retries_spec (env : Nat → Option Conn) (m : Metrics) :
    get_database_connection env 0 m
      = { metrics :=
            { m with db_connection_attempts := m.db_connection_attempts + 1 },
          conn := none, calls := 0 } := by
  rw [get_database_connection, connectFrom]
  simp

end EmbedSlackbot
